import Mathlib

/-!
Shallow embedding of the JSON5 deserializer in src/de.rs.

The deserializer walks a pest parse tree. A pest Pair carries a grammar
rule tag, the matched text span (as_str) and the list of inner pairs
(into_inner); we embed exactly the rules the deserializer inspects, plus
the object rule (grammar-recognised, no decode path) and a catch-all for
every other grammar rule.

Rust functions that can hit an unwrap or an unreachable arm are embedded
with an Option result: none models the panic (an uncatchable process
fault), some models normal return. Results that the Rust code returns as
Result are embedded with an explicit Outcome type separating a returned
error value from a panic.

Number texts produced by the grammar are ASCII, so Lean String.length,
String.take and String.drop coincide with the byte-indexed s.len() and
byte slicing used by the source on those texts.
-/

set_option autoImplicit false

namespace Json5

/-- Grammar rule tags of the pest parse tree, as matched in de.rs. -/
inductive Rule where
  | null
  | boolean
  | string
  | number
  | array
  | object
  | char_literal
  | char_escape_sequence
  | nul_escape_sequence
  | hex_escape_sequence
  | unicode_escape_sequence
  | other
  deriving DecidableEq, Repr

/-- A pest Pair: rule tag, matched text span, inner pairs. -/
inductive Pair where
  | mk (rule : Rule) (text : String) (inner : List Pair)

/-- Embeds pest Pair.as_rule. -/
def Pair.as_rule : Pair → Rule
  | Pair.mk r _ _ => r

/-- Embeds pest Pair.as_str. -/
def Pair.as_str : Pair → String
  | Pair.mk _ s _ => s

/-- Embeds pest Pair.into_inner, as the list of inner pairs. -/
def Pair.into_inner : Pair → List Pair
  | Pair.mk _ _ l => l

/-- Modelled from the spec: the error type of the error module, which is
not under src. Section 7 lists the kinds: StructuralError carrying a
position, DecodeError carrying a description, and UnsupportedShape. -/
inductive Error where
  | structural (position : Nat)
  | decode_fault (description : String)
  | unsupported_shape
  deriving DecidableEq, Repr

/-- Result of running a piece of the Rust deserializer: a normal value,
a returned (catchable) error value, or a panic, which in the source is an
unwrap or unreachable fault and never a returned error. -/
inductive Outcome (α : Type) where
  | ok (value : α)
  | err (e : Error)
  | panic
  deriving DecidableEq, Repr

/-- Map over the ok value of an Outcome. -/
def Outcome.map {α β : Type} (f : α → β) : Outcome α → Outcome β
  | Outcome.ok v => Outcome.ok (f v)
  | Outcome.err e => Outcome.err e
  | Outcome.panic => Outcome.panic

/-- Run the continuation on some, and turn none (a panic inside an
argument expression) into Outcome.panic. -/
def or_panic {α β : Type} (o : Option β) (f : β → Outcome α) : Outcome α :=
  match o with
  | some b => f b
  | none => Outcome.panic

/-- The f64 values the number decoder can produce. hex_val n is the exact
float of the natural number n (n is below 2 to the 32, hence below 2 to
the 53, so the widening in the source is exact). decimal s abstracts the
value of the standard library float parse of the text s, whose rounding
the claims never inspect. -/
inductive F64 where
  | inf
  | neg_inf
  | nan
  | hex_val (n : Nat)
  | decimal (s : String)
  deriving DecidableEq, Repr

/-- The is-NaN predicate on the embedded f64 values. -/
def F64.is_nan : F64 → Bool
  | F64.nan => true
  | _ => false

/-- Value of one hexadecimal digit, none for any other character. -/
def hex_digit_val (c : Char) : Option Nat :=
  if '0' ≤ c ∧ c ≤ '9' then some (c.toNat - '0'.toNat)
  else if 'a' ≤ c ∧ c ≤ 'f' then some (c.toNat - 'a'.toNat + 10)
  else if 'A' ≤ c ∧ c ≤ 'F' then some (c.toNat - 'A'.toNat + 10)
  else none

/-- Embeds the standard library call u32 from_str_radix with radix 16:
an optional leading plus sign, then one or more hex digits; none models
Err, produced on an empty digit string, a non-digit character, or a value
outside the u32 range (the library detects overflow during accumulation,
which rejects exactly the values at least 2 to the 32). -/
def from_str_radix_16 (s : String) : Option Nat :=
  let t := if s.take 1 = "+" then s.drop 1 else s
  if t.length = 0 then none
  else
    match t.toList.foldl
        (fun acc c =>
          match acc, hex_digit_val c with
          | some n, some d => some (16 * n + d)
          | _, _ => none)
        (some 0) with
    | some n => if n < 4294967296 then some n else none
    | none => none

/-- Embeds parse_hex in de.rs: u32 from_str_radix(s, 16) followed by
unwrap, so none is a panic. -/
def parse_hex (s : String) : Option Nat :=
  from_str_radix_16 s

/-- Embeds the standard library char from_u32: some exactly on Unicode
scalar values, none on surrogates and on values past the maximum code
point. -/
def char_from_u32 (n : Nat) : Option Char :=
  if n < 55296 ∨ (57344 ≤ n ∧ n < 1114112) then some (Char.ofNat n)
  else none

/-- Embeds is_hex_literal in de.rs: byte length above 2 and the first two
bytes exactly 0x or 0X (char and byte counts coincide on the ASCII number
texts the grammar produces). -/
def is_hex_literal (s : String) : Bool :=
  decide (2 < s.length) && (s.take 2 == "0x" || s.take 2 == "0X")

/-- Embeds parse_bool in de.rs; none models the unreachable arm, which
panics. -/
def parse_bool (pair : Pair) : Option Bool :=
  match pair.as_str with
  | "true" => some true
  | "false" => some false
  | _ => none

/-- Embeds parse_char_escape_sequence in de.rs: the six single-letter
escapes map to their control characters, any other escape text is
returned unchanged. -/
def parse_char_escape_sequence (pair : Pair) : String :=
  match pair.as_str with
  | "b" => "\u0008"
  | "f" => "\u000C"
  | "n" => "\n"
  | "r" => "\r"
  | "t" => "\t"
  | "v" => "\u000B"
  | c => c

/-- Embeds the per-component closure inside parse_string in de.rs. none
models a panic: the unwrap of char from_u32 on an invalid code point, the
unwrap inside parse_hex, or the unreachable arm for any other rule. -/
def decode_component (component : Pair) : Option String :=
  match component.as_rule with
  | Rule.char_literal => some component.as_str
  | Rule.char_escape_sequence => some (parse_char_escape_sequence component)
  | Rule.nul_escape_sequence => some "\u0000"
  | Rule.hex_escape_sequence =>
      (parse_hex component.as_str).bind fun n =>
        (char_from_u32 n).map Char.toString
  | Rule.unicode_escape_sequence =>
      (parse_hex component.as_str).bind fun n =>
        (char_from_u32 n).map Char.toString
  | _ => none

/-- Embeds parse_string in de.rs: decode each inner component in order and
concatenate; a panic in any component aborts the whole decode. -/
def parse_string (pair : Pair) : Option String :=
  (pair.into_inner.mapM decode_component).map String.join

/-- Exponent suffix of the standard library float grammar: empty, or an
e or E, an optional sign and one or more decimal digits. -/
def exp_ok (l : List Char) : Bool :=
  match l with
  | [] => true
  | c :: rest =>
      (c == 'e' || c == 'E') &&
      (let rest2 :=
        match rest with
        | s :: r2 => if s == '+' || s == '-' then r2 else rest
        | [] => rest
       !rest2.isEmpty && rest2.all Char.isDigit)

/-- Unsigned number of the standard library float grammar: digits with an
optional fractional part, at least one digit overall, then an optional
exponent. -/
def number_ok (l : List Char) : Bool :=
  let ds := l.takeWhile Char.isDigit
  let rest := l.dropWhile Char.isDigit
  match rest with
  | '.' :: rest2 =>
      let ds2 := rest2.takeWhile Char.isDigit
      let rest3 := rest2.dropWhile Char.isDigit
      (!ds.isEmpty || !ds2.isEmpty) && exp_ok rest3
  | _ => !ds.isEmpty && exp_ok rest

/-- Whether the standard library f64 from_str accepts the text: an
optional sign, then inf, infinity or nan in any letter case, or a decimal
or exponential number. -/
def rust_f64_valid (s : String) : Bool :=
  let l := s.toList
  let l2 :=
    match l with
    | c :: r => if c == '+' || c == '-' then r else l
    | [] => l
  let low := l2.map Char.toLower
  (low == "inf".toList || low == "infinity".toList || low == "nan".toList)
    || number_ok l2

/-- Embeds the standard library f64 from_str used by the default match arm
of parse_number, followed by unwrap: none models Err (a panic after the
unwrap); on accepted text the numeric value is abstracted as F64.decimal
tagged with the input text, since no claim inspects its rounding. -/
def rust_f64_parse (s : String) : Option F64 :=
  if rust_f64_valid s then some (F64.decimal s) else none

/-- Embeds parse_number in de.rs: the special literals, then the hex
guard, then the standard float parse; none models a panic from either
unwrap. -/
def parse_number (pair : Pair) : Option F64 :=
  let s := pair.as_str
  if s = "Infinity" then some F64.inf
  else if s = "-Infinity" then some F64.neg_inf
  else if s = "NaN" ∨ s = "-NaN" then some F64.nan
  else if is_hex_literal s then (parse_hex (s.drop 2)).map F64.hex_val
  else rust_f64_parse s

/-- Embeds the Access struct in de.rs: the not yet consumed inner pairs of
an array node, in source order (the pest Pairs iterator). -/
structure Access where
  pairs : List Pair

/-- Embeds Access to in de.rs. -/
def Access.to (pairs : List Pair) : Access :=
  Access.mk pairs

/-- A serde Visitor as the deserializer drives it: one accept method per
decoded kind. The sequence method receives the Access the deserializer
built over the array inner pairs. -/
structure Visitor (α : Type) where
  visit_unit : Outcome α
  visit_bool : Bool → Outcome α
  visit_string : String → Outcome α
  visit_f64 : F64 → Outcome α
  visit_seq : Access → Outcome α

/-- Embeds Json5Deserializer in de.rs: the single consumable node slot. -/
structure Json5Deserializer where
  pair : Option Pair

/-- Embeds Json5Deserializer from_pair. -/
def Json5Deserializer.from_pair (pair : Pair) : Json5Deserializer :=
  Json5Deserializer.mk (some pair)

/-- Embeds deserialize_any in de.rs. The take followed by unwrap on the
node slot panics when the slot is already consumed; the commented-out
object arm leaves object nodes, with every other rule, to the unreachable
arm, another panic. -/
def deserialize_any {α : Type} (d : Json5Deserializer) (visitor : Visitor α) :
    Outcome α :=
  match d.pair with
  | none => Outcome.panic
  | some pair =>
    match pair.as_rule with
    | Rule.null => visitor.visit_unit
    | Rule.boolean => or_panic (parse_bool pair) visitor.visit_bool
    | Rule.string => or_panic (parse_string pair) visitor.visit_string
    | Rule.number => or_panic (parse_number pair) visitor.visit_f64
    | Rule.array => visitor.visit_seq (Access.to pair.into_inner)
    | _ => Outcome.panic

/-! The forward_to_deserialize_any macro invocation in de.rs expands to
one method per listed type, each of which calls deserialize_any with the
same visitor, discarding every extra argument. -/

/-- Embeds the generated deserialize_bool. -/
def deserialize_bool {α : Type} (d : Json5Deserializer) (visitor : Visitor α) :
    Outcome α :=
  deserialize_any d visitor

/-- Embeds the generated deserialize_i8. -/
def deserialize_i8 {α : Type} (d : Json5Deserializer) (visitor : Visitor α) :
    Outcome α :=
  deserialize_any d visitor

/-- Embeds the generated deserialize_i16. -/
def deserialize_i16 {α : Type} (d : Json5Deserializer) (visitor : Visitor α) :
    Outcome α :=
  deserialize_any d visitor

/-- Embeds the generated deserialize_i32. -/
def deserialize_i32 {α : Type} (d : Json5Deserializer) (visitor : Visitor α) :
    Outcome α :=
  deserialize_any d visitor

/-- Embeds the generated deserialize_i64. -/
def deserialize_i64 {α : Type} (d : Json5Deserializer) (visitor : Visitor α) :
    Outcome α :=
  deserialize_any d visitor

/-- Embeds the generated deserialize_i128. -/
def deserialize_i128 {α : Type} (d : Json5Deserializer) (visitor : Visitor α) :
    Outcome α :=
  deserialize_any d visitor

/-- Embeds the generated deserialize_u8. -/
def deserialize_u8 {α : Type} (d : Json5Deserializer) (visitor : Visitor α) :
    Outcome α :=
  deserialize_any d visitor

/-- Embeds the generated deserialize_u16. -/
def deserialize_u16 {α : Type} (d : Json5Deserializer) (visitor : Visitor α) :
    Outcome α :=
  deserialize_any d visitor

/-- Embeds the generated deserialize_u32. -/
def deserialize_u32 {α : Type} (d : Json5Deserializer) (visitor : Visitor α) :
    Outcome α :=
  deserialize_any d visitor

/-- Embeds the generated deserialize_u64. -/
def deserialize_u64 {α : Type} (d : Json5Deserializer) (visitor : Visitor α) :
    Outcome α :=
  deserialize_any d visitor

/-- Embeds the generated deserialize_u128. -/
def deserialize_u128 {α : Type} (d : Json5Deserializer) (visitor : Visitor α) :
    Outcome α :=
  deserialize_any d visitor

/-- Embeds the generated deserialize_f32. -/
def deserialize_f32 {α : Type} (d : Json5Deserializer) (visitor : Visitor α) :
    Outcome α :=
  deserialize_any d visitor

/-- Embeds the generated deserialize_f64. -/
def deserialize_f64 {α : Type} (d : Json5Deserializer) (visitor : Visitor α) :
    Outcome α :=
  deserialize_any d visitor

/-- Embeds the generated deserialize_char. -/
def deserialize_char {α : Type} (d : Json5Deserializer) (visitor : Visitor α) :
    Outcome α :=
  deserialize_any d visitor

/-- Embeds the generated deserialize_str. -/
def deserialize_str {α : Type} (d : Json5Deserializer) (visitor : Visitor α) :
    Outcome α :=
  deserialize_any d visitor

/-- Embeds the generated deserialize_string. -/
def deserialize_string {α : Type} (d : Json5Deserializer) (visitor : Visitor α) :
    Outcome α :=
  deserialize_any d visitor

/-- Embeds the generated deserialize_bytes. -/
def deserialize_bytes {α : Type} (d : Json5Deserializer) (visitor : Visitor α) :
    Outcome α :=
  deserialize_any d visitor

/-- Embeds the generated deserialize_byte_buf. -/
def deserialize_byte_buf {α : Type} (d : Json5Deserializer) (visitor : Visitor α) :
    Outcome α :=
  deserialize_any d visitor

/-- Embeds the generated deserialize_option. -/
def deserialize_option {α : Type} (d : Json5Deserializer) (visitor : Visitor α) :
    Outcome α :=
  deserialize_any d visitor

/-- Embeds the generated deserialize_unit. -/
def deserialize_unit {α : Type} (d : Json5Deserializer) (visitor : Visitor α) :
    Outcome α :=
  deserialize_any d visitor

/-- Embeds the generated deserialize_unit_struct; the name argument is
discarded. -/
def deserialize_unit_struct {α : Type} (d : Json5Deserializer) (_name : String)
    (visitor : Visitor α) : Outcome α :=
  deserialize_any d visitor

/-- Embeds the generated deserialize_newtype_struct; the name argument is
discarded. -/
def deserialize_newtype_struct {α : Type} (d : Json5Deserializer) (_name : String)
    (visitor : Visitor α) : Outcome α :=
  deserialize_any d visitor

/-- Embeds the generated deserialize_seq. -/
def deserialize_seq {α : Type} (d : Json5Deserializer) (visitor : Visitor α) :
    Outcome α :=
  deserialize_any d visitor

/-- Embeds the generated deserialize_tuple; the length argument is
discarded. -/
def deserialize_tuple {α : Type} (d : Json5Deserializer) (_len : Nat)
    (visitor : Visitor α) : Outcome α :=
  deserialize_any d visitor

/-- Embeds the generated deserialize_tuple_struct; the name and length
arguments are discarded. -/
def deserialize_tuple_struct {α : Type} (d : Json5Deserializer) (_name : String)
    (_len : Nat) (visitor : Visitor α) : Outcome α :=
  deserialize_any d visitor

/-- Embeds the generated deserialize_map. -/
def deserialize_map {α : Type} (d : Json5Deserializer) (visitor : Visitor α) :
    Outcome α :=
  deserialize_any d visitor

/-- Embeds the generated deserialize_struct; the name and field list
arguments are discarded. -/
def deserialize_struct {α : Type} (d : Json5Deserializer) (_name : String)
    (_fields : List String) (visitor : Visitor α) : Outcome α :=
  deserialize_any d visitor

/-- Embeds the generated deserialize_enum; the name and variant list
arguments are discarded. -/
def deserialize_enum {α : Type} (d : Json5Deserializer) (_name : String)
    (_variants : List String) (visitor : Visitor α) : Outcome α :=
  deserialize_any d visitor

/-- Embeds the generated deserialize_identifier. -/
def deserialize_identifier {α : Type} (d : Json5Deserializer) (visitor : Visitor α) :
    Outcome α :=
  deserialize_any d visitor

/-- Embeds the generated deserialize_ignored_any. -/
def deserialize_ignored_any {α : Type} (d : Json5Deserializer) (visitor : Visitor α) :
    Outcome α :=
  deserialize_any d visitor

/-- Embeds next_element_seed in de.rs. A serde seed is abstracted as the
function the deserializer hands a fresh core to; the call builds the
fresh Json5Deserializer over the next child pair, runs the seed on it,
wraps a success in some and advances past that child; on an exhausted
iterator it returns ok none and leaves the state unchanged. -/
def next_element_seed {β : Type} (a : Access)
    (seed : Json5Deserializer → Outcome β) : Outcome (Option β) × Access :=
  match a.pairs with
  | pair :: rest =>
      (Outcome.map some (seed (Json5Deserializer.from_pair pair)), Access.to rest)
  | [] => (Outcome.ok none, a)

/-- Caller harness for the sequence accessor: the list of results of the
first n successive next_element_seed calls, threading the accessor state
as the visitor of a sequence would. -/
def seq_run {β : Type} (a : Access) (seed : Json5Deserializer → Outcome β) :
    Nat → List (Outcome (Option β))
  | 0 => []
  | n + 1 =>
      let r := next_element_seed a seed
      r.1 :: seq_run r.2 seed n

/-- Modelled from the spec: the external Grammar Engine contract of
section 4.1, parse(text) giving either the root ParseNode or a structural
error carrying a position. The pest parse call plus the next and unwrap
on its iterator in Json5Deserializer from_str are folded into this
contract. -/
def GrammarEngine : Type :=
  String → Except Nat Pair

/-- Embeds Json5Deserializer from_str in de.rs, parameterised by the
Grammar Engine: the question mark operator converts a grammar rejection
into the structural error, and a root node becomes a deserializer holding
it. -/
def Json5Deserializer.from_str (g : GrammarEngine) (input : String) :
    Except Error Json5Deserializer :=
  match g input with
  | Except.error position => Except.error (Error.structural position)
  | Except.ok pair => Except.ok (Json5Deserializer.from_pair pair)

/-- Embeds the top level from_str in de.rs, with the target type
deserialize implementation abstracted as the function it applies to the
deserializer; a structural error short-circuits before it runs. -/
def from_str {α : Type} (g : GrammarEngine)
    (deserialize : Json5Deserializer → Outcome α) (s : String) : Outcome α :=
  match Json5Deserializer.from_str g s with
  | Except.error e => Outcome.err e
  | Except.ok d => deserialize d

/-- A concrete test visitor that accepts every kind, used to observe
which outcome the deserializer itself produces. -/
def probeVisitor : Visitor Unit :=
  Visitor.mk (Outcome.ok ()) (fun _ => Outcome.ok ()) (fun _ => Outcome.ok ())
    (fun _ => Outcome.ok ()) (fun _ => Outcome.ok ())

/-- The per-component string value exactly as the specification words it:
a raw literal run is copied verbatim, each single-letter escape b f n r t
v maps to its control character, any other escaped character maps to
itself, and a NUL escape maps to code point 0. Stated over the three
component kinds the claim covers; other kinds are outside its scope. -/
def spec_component_value (component : Pair) : String :=
  match component.as_rule with
  | Rule.char_literal => component.as_str
  | Rule.char_escape_sequence =>
      match component.as_str with
      | "b" => "\u0008"
      | "f" => "\u000C"
      | "n" => "\n"
      | "r" => "\r"
      | "t" => "\t"
      | "v" => "\u000B"
      | c => c
  | Rule.nul_escape_sequence => "\u0000"
  | _ => ""

end Json5

namespace Json5

/-! Helper lemmas shared by the claim theorems. -/

/-- On the three simple component kinds, the decoder agrees with the
specification wording of the per-component value. -/
theorem decode_component_eq_spec (c : Pair)
    (h : c.as_rule = Rule.char_literal ∨ c.as_rule = Rule.char_escape_sequence
      ∨ c.as_rule = Rule.nul_escape_sequence) :
    decode_component c = some (spec_component_value c) := by
  obtain ⟨r, s, i⟩ := c
  simp only [Pair.as_rule] at h
  rcases h with h | h | h <;> subst h
  · rfl
  · simp only [decode_component, spec_component_value, Pair.as_rule,
      parse_char_escape_sequence, Pair.as_str]
  · rfl

/-- Lift the previous lemma through mapM over a component list. -/
theorem mapM_decode_eq_spec (l : List Pair)
    (h : ∀ c ∈ l, c.as_rule = Rule.char_literal ∨ c.as_rule = Rule.char_escape_sequence
      ∨ c.as_rule = Rule.nul_escape_sequence) :
    l.mapM decode_component = some (l.map spec_component_value) := by
  induction l with
  | nil => rfl
  | cons a t ih =>
      have ha := decode_component_eq_spec a (h a (by simp))
      have ht := ih (fun c hc => h c (by simp [hc]))
      rw [List.mapM_cons, ha, ht]
      rfl

/-- An exhausted accessor keeps answering ok none. -/
theorem seq_run_nil {β : Type} (seed : Json5Deserializer → Outcome β) :
    ∀ m : Nat, seq_run (Access.mk []) seed m = List.replicate m (Outcome.ok none)
  | 0 => rfl
  | m + 1 => by
      show Outcome.ok none :: seq_run (Access.mk []) seed m
          = List.replicate (m + 1) (Outcome.ok none)
      rw [seq_run_nil seed m, List.replicate_succ]

end Json5

namespace Json5

/-- Claim C1 (amended): an object node handed to the deserializer is not
routed to any decode path; the commented-out object arm leaves it to the
catch-all unreachable arm, so the dispatch panics for every visitor,
instead of returning an UnsupportedShape error value. -/
theorem deserialize_any_object_panics {α : Type} (p : Pair)
    (h : p.as_rule = Rule.object) (visitor : Visitor α) :
    deserialize_any (Json5Deserializer.from_pair p) visitor = Outcome.panic := by
  obtain ⟨r, s, i⟩ := p
  simp only [Pair.as_rule] at h
  subst h
  rfl

/-- Witness for the amended claim C1 at the empty object literal. -/
theorem deserialize_any_object_panics_witness :
    deserialize_any (Json5Deserializer.from_pair (Pair.mk Rule.object "\x7b\x7d" []))
      probeVisitor = Outcome.panic :=
  deserialize_any_object_panics (Pair.mk Rule.object "\x7b\x7d" []) rfl probeVisitor

/-- Counterexample to claim C1 as stated: decoding the object literal
node for a one-entry object produces the panic outcome, and in particular
not the UnsupportedShape error value the claim promises. -/
theorem deserialize_any_object_literal_cx :
    deserialize_any (Json5Deserializer.from_pair (Pair.mk Rule.object "\x7b\x22a\x22: 1\x7d"
        [Pair.mk Rule.string "\x22a\x22" [Pair.mk Rule.char_literal "a" []],
         Pair.mk Rule.number "1" []]))
      probeVisitor = Outcome.panic
    ∧ deserialize_any (Json5Deserializer.from_pair (Pair.mk Rule.object "\x7b\x22a\x22: 1\x7d"
        [Pair.mk Rule.string "\x22a\x22" [Pair.mk Rule.char_literal "a" []],
         Pair.mk Rule.number "1" []]))
      probeVisitor ≠ Outcome.err Error.unsupported_shape :=
  ⟨rfl, by decide⟩

/-- Claim C2 (amended): on a number node whose text passes the hex
literal test, the decoder parses the digits after the prefix as an
unsigned 32-bit hexadecimal integer and widens that value to floating
point; overflow past 32 bits is not truncated but panics, see the
counterexample. -/
theorem parse_number_hex_spec (s : String) (inner : List Pair) (n : Nat)
    (hhex : is_hex_literal s = true)
    (hval : from_str_radix_16 (s.drop 2) = some n) :
    parse_number (Pair.mk Rule.number s inner) = some (F64.hex_val n) := by
  have h1 : s ≠ "Infinity" := fun e => absurd (e ▸ hhex) (by decide)
  have h2 : s ≠ "-Infinity" := fun e => absurd (e ▸ hhex) (by decide)
  have h3 : s ≠ "NaN" := fun e => absurd (e ▸ hhex) (by decide)
  have h4 : s ≠ "-NaN" := fun e => absurd (e ▸ hhex) (by decide)
  simp [parse_number, Pair.as_str, h1, h2, h3, h4, hhex, parse_hex, hval]

/-- Witness for claim C2: the text 0x1F decodes to the float of 31. -/
theorem parse_number_hex_spec_witness :
    parse_number (Pair.mk Rule.number "0x1F" []) = some (F64.hex_val 31) :=
  parse_number_hex_spec "0x1F" [] 31 (by decide) (by decide)

/-- Counterexample to claim C2 as stated: a hex digit string whose value
needs 33 bits is not silently truncated to 32 bits (which would give the
float of 0); the unwrap on the failed u32 parse panics. -/
theorem parse_number_hex_overflow_cx :
    parse_number (Pair.mk Rule.number "0x100000000" []) = none
    ∧ parse_number (Pair.mk Rule.number "0x100000000" []) ≠ some (F64.hex_val 0) := by
  decide

/-- Claim C3 (confirmed): the number texts Infinity and -Infinity decode
to the two infinities, and NaN and -NaN both decode to the same NaN
value, the sign of a NaN literal being discarded. -/
theorem parse_number_special_literals (inner : List Pair) :
    parse_number (Pair.mk Rule.number "Infinity" inner) = some F64.inf
    ∧ parse_number (Pair.mk Rule.number "-Infinity" inner) = some F64.neg_inf
    ∧ parse_number (Pair.mk Rule.number "NaN" inner) = some F64.nan
    ∧ parse_number (Pair.mk Rule.number "-NaN" inner) = some F64.nan
    ∧ F64.is_nan F64.nan = true :=
  ⟨rfl, rfl, rfl, rfl, rfl⟩

end Json5

namespace Json5

/-- Claim C4 (confirmed): on a string node all of whose components are
raw literal runs, single-character escapes or NUL escapes, the decoded
string is the in-order concatenation of the per-component values the
specification lists: a raw run verbatim, each of b f n r t v its control
character, any other escaped character itself, and a NUL escape code
point 0. -/
theorem parse_string_concat_spec (p : Pair)
    (h : ∀ c ∈ p.into_inner, c.as_rule = Rule.char_literal
      ∨ c.as_rule = Rule.char_escape_sequence
      ∨ c.as_rule = Rule.nul_escape_sequence) :
    parse_string p = some (String.join (p.into_inner.map spec_component_value)) := by
  rw [parse_string, mapM_decode_eq_spec _ h]
  rfl

/-- Witness for claim C4: the string literal with components a, escaped
n, b decodes to the three-character string a, newline, b. -/
theorem parse_string_concat_spec_witness :
    parse_string (Pair.mk Rule.string "\x22a\\nb\x22"
        [Pair.mk Rule.char_literal "a" [],
         Pair.mk Rule.char_escape_sequence "n" [],
         Pair.mk Rule.char_literal "b" []])
      = some "a\nb"
    ∧ ("a\nb").length = 3 :=
  ⟨(parse_string_concat_spec
      (Pair.mk Rule.string "\x22a\\nb\x22"
        [Pair.mk Rule.char_literal "a" [],
         Pair.mk Rule.char_escape_sequence "n" [],
         Pair.mk Rule.char_literal "b" []])
      (by decide)).trans (by decide),
   by decide⟩

/-- Claim C5 (amended): a hex or unicode escape component whose digits
parse to the code point n decodes to the one-character string of that
code point when n is a Unicode scalar value; when it is not, the unwrap
on the failed conversion panics, so the whole decode faults instead of
returning a catchable decode error. -/
theorem hex_escape_scalar_spec (p : Pair) (n : Nat)
    (hr : p.as_rule = Rule.hex_escape_sequence
      ∨ p.as_rule = Rule.unicode_escape_sequence)
    (hn : parse_hex p.as_str = some n) :
    decode_component p = (char_from_u32 n).map Char.toString
    ∧ (char_from_u32 n = none → decode_component p = none) := by
  obtain ⟨r, s, i⟩ := p
  simp only [Pair.as_rule, Pair.as_str] at hr hn
  constructor
  · rcases hr with h | h <;> subst h <;>
      simp [decode_component, Pair.as_rule, Pair.as_str, hn]
  · intro hc
    rcases hr with h | h <;> subst h <;>
      simp [decode_component, Pair.as_rule, Pair.as_str, hn, hc]

/-- Witness for the amended claim C5 at the hex escape 41, which is the
scalar value of the letter A. -/
theorem hex_escape_scalar_spec_witness :
    decode_component (Pair.mk Rule.hex_escape_sequence "41" []) = some "A" :=
  ((hex_escape_scalar_spec (Pair.mk Rule.hex_escape_sequence "41" []) 65
      (Or.inl rfl) (by decide)).1).trans (by decide)

/-- Counterexample to claim C5 as stated: the unicode escape D800 names a
surrogate, not a scalar value; the string decoder returns the panic
outcome on it (modelled by none and by Outcome.panic through the
dispatch), never a catchable decode error value. -/
theorem hex_escape_surrogate_cx :
    parse_string (Pair.mk Rule.string "\x22\\uD800\x22"
        [Pair.mk Rule.unicode_escape_sequence "D800" []]) = none
    ∧ deserialize_any (Json5Deserializer.from_pair (Pair.mk Rule.string "\x22\\uD800\x22"
        [Pair.mk Rule.unicode_escape_sequence "D800" []]))
      probeVisitor = Outcome.panic := by
  decide

/-- Claim C6 (confirmed): over an array node with the child list l, the
first length-of-l calls to next_element_seed decode exactly the children,
in source order, each through a fresh deserializer core built over that
child, wrapped in some; every call after that answers ok none with the
accessor state unchanged, for any number m of further calls. -/
theorem next_element_seed_spec {β : Type} (l : List Pair)
    (seed : Json5Deserializer → Outcome β) (f : Pair → β)
    (h : ∀ p ∈ l, seed (Json5Deserializer.from_pair p) = Outcome.ok (f p))
    (m : Nat) :
    seq_run (Access.to l) seed (l.length + m)
      = l.map (fun p => Outcome.ok (some (f p)))
        ++ List.replicate m (Outcome.ok none) := by
  induction l with
  | nil => simpa [Access.to] using seq_run_nil seed m
  | cons a t ih =>
      have ha := h a (by simp)
      have ht := ih (fun p hp => h p (by simp [hp]))
      have hlen : (a :: t).length + m = (t.length + m) + 1 := by
        simp [List.length_cons]
        omega
      rw [hlen]
      show (next_element_seed (Access.to (a :: t)) seed).1
          :: seq_run (next_element_seed (Access.to (a :: t)) seed).2 seed (t.length + m)
        = _
      rw [show next_element_seed (Access.to (a :: t)) seed
          = (Outcome.map some (seed (Json5Deserializer.from_pair a)), Access.to t) from rfl]
      rw [ha]
      simp only [Outcome.map, ht, List.map_cons, List.cons_append]

/-- Witness for claim C6: a two-element array yields two some results in
order, then ok none twice. -/
theorem next_element_seed_spec_witness :
    seq_run (Access.to [Pair.mk Rule.null "null" [], Pair.mk Rule.boolean "true" []])
        (fun d => Outcome.ok d) 4
      = [Outcome.ok (some (Json5Deserializer.from_pair (Pair.mk Rule.null "null" []))),
         Outcome.ok (some (Json5Deserializer.from_pair (Pair.mk Rule.boolean "true" []))),
         Outcome.ok none, Outcome.ok none] :=
  next_element_seed_spec
    [Pair.mk Rule.null "null" [], Pair.mk Rule.boolean "true" []]
    (fun d => Outcome.ok d) Json5Deserializer.from_pair (fun _ _ => rfl) 2

end Json5

namespace Json5

/-- Claim C7 (confirmed): every typed deserialize entry point generated
by the forwarding macro produces exactly the result of the generic
deserialize_any on the same deserializer and visitor, for every extra
name, field, variant or length argument: the held node, not the requested
type, determines the result. -/
theorem typed_entry_points_forward {α : Type} :
    ∀ (d : Json5Deserializer) (visitor : Visitor α) (name : String)
      (fields variants : List String) (len : Nat),
      deserialize_bool d visitor = deserialize_any d visitor
      ∧ deserialize_i8 d visitor = deserialize_any d visitor
      ∧ deserialize_i16 d visitor = deserialize_any d visitor
      ∧ deserialize_i32 d visitor = deserialize_any d visitor
      ∧ deserialize_i64 d visitor = deserialize_any d visitor
      ∧ deserialize_i128 d visitor = deserialize_any d visitor
      ∧ deserialize_u8 d visitor = deserialize_any d visitor
      ∧ deserialize_u16 d visitor = deserialize_any d visitor
      ∧ deserialize_u32 d visitor = deserialize_any d visitor
      ∧ deserialize_u64 d visitor = deserialize_any d visitor
      ∧ deserialize_u128 d visitor = deserialize_any d visitor
      ∧ deserialize_f32 d visitor = deserialize_any d visitor
      ∧ deserialize_f64 d visitor = deserialize_any d visitor
      ∧ deserialize_char d visitor = deserialize_any d visitor
      ∧ deserialize_str d visitor = deserialize_any d visitor
      ∧ deserialize_string d visitor = deserialize_any d visitor
      ∧ deserialize_bytes d visitor = deserialize_any d visitor
      ∧ deserialize_byte_buf d visitor = deserialize_any d visitor
      ∧ deserialize_option d visitor = deserialize_any d visitor
      ∧ deserialize_unit d visitor = deserialize_any d visitor
      ∧ deserialize_unit_struct d name visitor = deserialize_any d visitor
      ∧ deserialize_newtype_struct d name visitor = deserialize_any d visitor
      ∧ deserialize_seq d visitor = deserialize_any d visitor
      ∧ deserialize_tuple d len visitor = deserialize_any d visitor
      ∧ deserialize_tuple_struct d name len visitor = deserialize_any d visitor
      ∧ deserialize_map d visitor = deserialize_any d visitor
      ∧ deserialize_struct d name fields visitor = deserialize_any d visitor
      ∧ deserialize_enum d name variants visitor = deserialize_any d visitor
      ∧ deserialize_identifier d visitor = deserialize_any d visitor
      ∧ deserialize_ignored_any d visitor = deserialize_any d visitor :=
  fun _ _ _ _ _ _ =>
    ⟨rfl, rfl, rfl, rfl, rfl, rfl, rfl, rfl, rfl, rfl, rfl, rfl, rfl, rfl, rfl,
     rfl, rfl, rfl, rfl, rfl, rfl, rfl, rfl, rfl, rfl, rfl, rfl, rfl, rfl, rfl⟩

/-- Claim C8 (confirmed): under the grammar guarantee that a boolean node
text is exactly true or false, the boolean decoder returns the matching
boolean, and the unreachable fallback arm is never taken. -/
theorem parse_bool_spec (p : Pair)
    (h : p.as_str = "true" ∨ p.as_str = "false") :
    parse_bool p = some (p.as_str == "true") ∧ parse_bool p ≠ none := by
  obtain ⟨r, s, i⟩ := p
  simp only [Pair.as_str] at h ⊢
  rcases h with h | h <;> subst h <;>
    exact ⟨rfl, by simp [parse_bool, Pair.as_str]⟩

/-- Witness for claim C8 at the literal text true. -/
theorem parse_bool_spec_witness :
    parse_bool (Pair.mk Rule.boolean "true" []) = some true
    ∧ parse_bool (Pair.mk Rule.boolean "true" []) ≠ none :=
  parse_bool_spec (Pair.mk Rule.boolean "true" []) (Or.inl rfl)

/-- Claim C9 (confirmed, over the spec-modelled Grammar Engine contract):
whenever the grammar rejects the input with a position, the top level
decode entry point returns the structural error carrying that position,
for every target deserialize function, which is therefore never run: no
scalar decoder and no visitor method is reached. -/
theorem from_str_structural_error {α : Type} (g : GrammarEngine) (s : String)
    (position : Nat) (hrej : g s = Except.error position)
    (deserialize : Json5Deserializer → Outcome α) :
    from_str g deserialize s = Outcome.err (Error.structural position) := by
  simp [from_str, Json5Deserializer.from_str, hrej]

/-- Witness for claim C9 on a grammar that rejects everything at
position 7. -/
theorem from_str_structural_error_witness :
    from_str (fun _ => Except.error 7) (fun _ => Outcome.ok ()) "]"
      = Outcome.err (Error.structural 7) :=
  from_str_structural_error (fun _ => Except.error 7) "]" 7 rfl
    (fun _ => Outcome.ok ())

/-- Claim C10 (confirmed): the hex literal test accepts exactly the texts
of length above 2 whose first two characters are 0x or 0X; hence the
signed text -0x10 and the bare text 0x fail the test and the number
decoder routes them to the standard decimal float parse instead of the
hexadecimal path. -/
theorem is_hex_literal_routing :
    (∀ s : String, is_hex_literal s
        = (decide (2 < s.length) && (s.take 2 == "0x" || s.take 2 == "0X")))
    ∧ is_hex_literal "-0x10" = false
    ∧ is_hex_literal "0x" = false
    ∧ is_hex_literal "0x10" = true
    ∧ parse_number (Pair.mk Rule.number "-0x10" []) = rust_f64_parse "-0x10"
    ∧ parse_number (Pair.mk Rule.number "0x" []) = rust_f64_parse "0x" :=
  ⟨fun _ => rfl, by decide, by decide, by decide, by decide, by decide⟩

end Json5
